import Mathlib

/-!
# Verification of the sales analytics pipeline

Shallow embedding of the analytical core of the repository
(`recommendations.py`, `salesforcast.py`): monthly aggregation of sale
records, z-score and density anomaly detection, threshold-based pattern
analysis, linear-regression demand forecasting, and the HTTP endpoint's
control flow.  Quantities and derived statistics are modelled over `ℚ`
(idealising IEEE floats); pandas' NaN sample standard deviation of a
single value is modelled with `Option`; a raised Python exception is
modelled with `Except`.
-/

namespace SalesAI

/-- A timezone-aware timestamp, already normalised to UTC
(`pd.to_datetime(_, utc=True)` converts every input to UTC). -/
structure UTCTime where
  year : Nat
  month : Nat
  day : Nat
  hour : Nat
  minute : Nat
  second : Nat
deriving DecidableEq, Repr, Inhabited

/-- Source `sold_at.dt.to_period("M")`: the calendar-month label of a UTC
timestamp, i.e. its (year, month) pair. -/
def UTCTime.monthKey (t : UTCTime) : Nat × Nat :=
  (t.year, t.month)

/-- One row of the `dynamic_sales` table as selected by both scripts. -/
structure SaleRecord where
  dynamic_product_id : Int
  store_id : Int
  quantity : Int
  sold_at : UTCTime
deriving DecidableEq, Repr, Inhabited

/-- The (product, store) grouping key used for per-pair analysis. -/
def SaleRecord.pairKey (r : SaleRecord) : Int × Int :=
  (r.dynamic_product_id, r.store_id)

/-- The (product, store, month) grouping key of the monthly aggregation. -/
def SaleRecord.key (r : SaleRecord) : Int × Int × Nat × Nat :=
  (r.dynamic_product_id, r.store_id, r.sold_at.monthKey)

/-- One row of
`sales_df.groupby(["dynamic_product_id","store_id","month"])["quantity"].sum().reset_index()`. -/
structure MonthlyBucket where
  dynamic_product_id : Int
  store_id : Int
  month : Nat × Nat
  quantity : Int
deriving DecidableEq, Repr, Inhabited

/-- The (product, store, month) key of a monthly bucket. -/
def MonthlyBucket.key (b : MonthlyBucket) : Int × Int × Nat × Nat :=
  (b.dynamic_product_id, b.store_id, b.month)

/-- The (product, store) pair of a monthly bucket. -/
def MonthlyBucket.pairKey (b : MonthlyBucket) : Int × Int :=
  (b.dynamic_product_id, b.store_id)

/-- The monthly aggregation used by both `analyze_sales_patterns` and
`forecast_demand`: one bucket per distinct (product, store, month) key,
holding the sum of the `quantity` column over the matching rows.
(`groupby(...)["quantity"].sum()`; bucket order is immaterial to every
property below.) -/
def monthly_sales (sales : List SaleRecord) : List MonthlyBucket :=
  (sales.map SaleRecord.key).dedup.map fun k =>
    { dynamic_product_id := k.1
      store_id := k.2.1
      month := k.2.2
      quantity := ((sales.filter fun r => r.key = k).map SaleRecord.quantity).sum }

/-! ## Statistics (`np.mean`, `np.std`, pandas `.mean()` / `.std()`) -/

/-- Mean as in `np.mean` / pandas `.mean()`: sum divided by length. -/
def qmean (xs : List ℚ) : ℚ :=
  xs.sum / (xs.length : ℚ)

/-- Square of `np.std(xs)`: the population variance (`ddof = 0`). -/
def popVar (xs : List ℚ) : ℚ :=
  ((xs.map fun x => (x - qmean xs) ^ 2).sum) / (xs.length : ℚ)

/-- The value `np.std(xs)` itself: the population standard deviation. -/
noncomputable def popStd (xs : List ℚ) : ℝ :=
  Real.sqrt ((popVar xs : ℚ) : ℝ)

/-- Square of the pandas `Series.std()` sample standard deviation
(`ddof = 1`); `none` models the NaN produced for fewer than two values. -/
def sampleVar? (xs : List ℚ) : Option ℚ :=
  if xs.length < 2 then none
  else some (((xs.map fun x => (x - qmean xs) ^ 2).sum) / ((xs.length : ℚ) - 1))

/-! ## Z-score anomaly detection (`salesforcast.detect_anomalies`) -/

inductive AnomalyType where
  | High
  | Low
deriving DecidableEq, Repr, Inhabited

/-- Source `z_scores[i] = (q - mean) / std if std > 0 else 0`, literally as in the
source, with `std = np.std(quantities)`. -/
noncomputable def zscore (xs : List ℚ) (i : Nat) : ℝ :=
  if 0 < popStd xs then (((xs.getD i 0 : ℚ) : ℝ) - ((qmean xs : ℚ) : ℝ)) / popStd xs else 0

/-- Executable, square-root-free form of the source's flagging test
`abs(z) > 3`: equivalent to `3 < |zscore xs i|` (proved in
`abs_zscore_gt_three_iff`). -/
def zFlag (xs : List ℚ) (i : Nat) : Bool :=
  decide (0 < popVar xs) && decide (9 * popVar xs < (xs.getD i 0 - qmean xs) ^ 2)

/-- Source `anomaly_indices = [i for i, z in enumerate(z_scores) if abs(z) > 3]`,
guarded by the source's `if len(quantities) < 3: continue`. -/
def anomaly_indices (xs : List ℚ) : List Nat :=
  if xs.length < 3 then []
  else (List.range xs.length).filter fun i => zFlag xs i

/-- Source `"High" if z_scores[idx] > 0 else "Low"` in executable form:
`z > 0` iff the standard deviation is positive and the point exceeds the
mean (proved equivalent in `zscore_pos_iff`). -/
def zType (xs : List ℚ) (i : Nat) : AnomalyType :=
  if 0 < popVar xs ∧ qmean xs < xs.getD i 0 then .High else .Low

/-- An `anomalies` row as built by `salesforcast.detect_anomalies`
(no display-name enrichment in that script). -/
structure Anomaly where
  dynamic_product_id : Int
  store_id : Int
  quantity : Int
  sold_at : UTCTime
  anomaly_type : AnomalyType
  created_at : UTCTime
deriving DecidableEq, Repr, Inhabited

/-- The distinct (product, store) pairs of the sales table
(`drop_duplicates()`; order immaterial to every property below). -/
def salePairs (sales : List SaleRecord) : List (Int × Int) :=
  (sales.map SaleRecord.pairKey).dedup

/-- The rows of one (product, store) pair, in table order. -/
def pairRows (sales : List SaleRecord) (p : Int × Int) : List SaleRecord :=
  sales.filter fun r => r.pairKey = p

/-- The anomaly rows one pair contributes in
`salesforcast.detect_anomalies`. -/
def sf_pair_anomalies (now : UTCTime) (rows : List SaleRecord) : List Anomaly :=
  let qs := rows.map fun r => (r.quantity : ℚ)
  (anomaly_indices qs).map fun i =>
    let r := rows.getD i default
    { dynamic_product_id := r.dynamic_product_id
      store_id := r.store_id
      quantity := r.quantity
      sold_at := r.sold_at
      anomaly_type := zType qs i
      created_at := now }

/-- The message of the `KeyError` raised by `sales_df["sold_at"]` when
`pd.DataFrame(sales)` is built from an empty list and so has no columns. -/
def keyErrorSoldAt : String := "KeyError: sold_at"

/-- Function `detect_anomalies` of `salesforcast.py` over the fetched sales rows: on an
empty table, `pd.DataFrame([])["sold_at"]` raises a `KeyError`; otherwise
every (product, store) pair's series is scanned with the z-score rule. -/
def sf_detect_anomalies (now : UTCTime) (sales : List SaleRecord) :
    Except String (List Anomaly) :=
  if sales = [] then .error keyErrorSoldAt
  else .ok ((salePairs sales).flatMap fun p => sf_pair_anomalies now (pairRows sales p))

/-- The run-time-independent content of an anomaly row (everything except
the `created_at` stamp). -/
def anomalyCore (a : Anomaly) : Int × Int × Int × UTCTime × AnomalyType :=
  (a.dynamic_product_id, a.store_id, a.quantity, a.sold_at, a.anomaly_type)

/-! ## Density anomaly detection (`recommendations.detect_anomalies`) -/

/-- Display-name enrichment: the product / store name from the lookup, or
the source's fallback string. -/
def displayName (lookup : Int → Option String) (fallbackPre : String) (id : Int) : String :=
  match lookup id with
  | some nm => nm
  | none => fallbackPre ++ toString id

def productFallback : String := "Product ID: "

def storeFallback : String := "Store ID: "

/-- An `anomalies` row as built by `recommendations.detect_anomalies`
(with display-name enrichment). -/
structure AnomalyN where
  dynamic_product_id : Int
  store_id : Int
  quantity : Int
  sold_at : UTCTime
  anomaly_type : AnomalyType
  product_name : String
  shop_name : String
  created_at : UTCTime
deriving DecidableEq, Repr, Inhabited

/-- Function `detect_anomalies` of `recommendations.py`: per pair, series of fewer than 3
or more than 500 points are skipped, `iso_forest.fit_predict` (modelled by
the `forest` argument — a pure function, as the forest is constructed with
the fixed seed `random_state=42`) marks outliers, a failing fit skips the
pair, and a flagged row is High iff its quantity strictly exceeds the
pair's mean quantity.  Empty input returns an empty list (guarded by
`if sales_df.empty`). -/
def rec_detect_anomalies (forest : List ℚ → Except String (List Bool))
    (pname sname : Int → Option String) (now : UTCTime) (sales : List SaleRecord) :
    List AnomalyN :=
  if sales = [] then []
  else (salePairs sales).flatMap fun p =>
    let rows := pairRows sales p
    if rows.length < 3 then []
    else if 500 < rows.length then []
    else
      let qs := rows.map fun r => (r.quantity : ℚ)
      match forest qs with
      | .error _ => []
      | .ok flags =>
        ((List.range rows.length).filter fun i => flags.getD i false).map fun i =>
          let r := rows.getD i default
          { dynamic_product_id := r.dynamic_product_id
            store_id := r.store_id
            quantity := r.quantity
            sold_at := r.sold_at
            anomaly_type := if qmean qs < (r.quantity : ℚ) then .High else .Low
            product_name := displayName pname productFallback r.dynamic_product_id
            shop_name := displayName sname storeFallback r.store_id
            created_at := now }

/-- The run-time-independent content of an enriched anomaly row. -/
def anomalyNCore (a : AnomalyN) :
    Int × Int × Int × UTCTime × AnomalyType × String × String :=
  (a.dynamic_product_id, a.store_id, a.quantity, a.sold_at, a.anomaly_type,
   a.product_name, a.shop_name)

/-! ## Pattern analysis (`recommendations.analyze_sales_patterns`) -/

/-- Pads a month number to the two digits of a pandas `Period` month
label. -/
def padTwo (m : Nat) : String :=
  if m < 10 then "0" ++ toString m else toString m

/-- The `str(Period)` month label "YYYY-MM" of a (year, month) pair. -/
def monthStr (ym : Nat × Nat) : String :=
  toString ym.1 ++ "-" ++ padTwo ym.2

/-- Test `quantity >= high_sales_threshold`, where
`high_sales_threshold = mean + std` with `std` the sample standard
deviation: false when `std` is NaN (IEEE comparisons with NaN are false),
otherwise the square-root-free equivalent of `mean + √v ≤ q` (proved in
`highFlag_iff`). -/
def highFlag (m : ℚ) (v? : Option ℚ) (q : ℚ) : Bool :=
  match v? with
  | none => false
  | some v => decide (0 ≤ q - m) && decide (v ≤ (q - m) ^ 2)

/-- Test `quantity <= low_sales_threshold`, where
`low_sales_threshold = mean - std`: false when `std` is NaN, otherwise the
square-root-free equivalent of `q ≤ mean - √v` (proved in `lowFlag_iff`). -/
def lowFlag (m : ℚ) (v? : Option ℚ) (q : ℚ) : Bool :=
  match v? with
  | none => false
  | some v => decide (0 ≤ m - q) && decide (v ≤ (m - q) ^ 2)

/-- A `restock_recommendations` row. -/
structure Recommendation where
  dynamic_product_id : Int
  store_id : Int
  product_name : String
  shop_name : String
  month : Nat × Nat
  quantity_sold : Int
  recommendation : String
  created_at : UTCTime
deriving DecidableEq, Repr, Inhabited

/-- The (product, store, month) key of a recommendation row. -/
def Recommendation.key (r : Recommendation) : Int × Int × Nat × Nat :=
  (r.dynamic_product_id, r.store_id, r.month)

def mkRestockRec (pname sname : Int → Option String) (now : UTCTime)
    (b : MonthlyBucket) : Recommendation :=
  let nm := displayName pname productFallback b.dynamic_product_id
  { dynamic_product_id := b.dynamic_product_id
    store_id := b.store_id
    product_name := nm
    shop_name := displayName sname storeFallback b.store_id
    month := b.month
    quantity_sold := b.quantity
    recommendation := "Restock " ++ nm ++ " for " ++ monthStr b.month ++ " due to high demand"
    created_at := now }

def mkHighDemandRec (pname sname : Int → Option String) (now : UTCTime)
    (b : MonthlyBucket) : Recommendation :=
  let nm := displayName pname productFallback b.dynamic_product_id
  { dynamic_product_id := b.dynamic_product_id
    store_id := b.store_id
    product_name := nm
    shop_name := displayName sname storeFallback b.store_id
    month := b.month
    quantity_sold := b.quantity
    recommendation := "High demand for " ++ nm ++ " in " ++ monthStr b.month ++ "; plan inventory accordingly"
    created_at := now }

def mkAvoidRec (pname sname : Int → Option String) (now : UTCTime)
    (b : MonthlyBucket) : Recommendation :=
  let nm := displayName pname productFallback b.dynamic_product_id
  { dynamic_product_id := b.dynamic_product_id
    store_id := b.store_id
    product_name := nm
    shop_name := displayName sname storeFallback b.store_id
    month := b.month
    quantity_sold := b.quantity
    recommendation := "Purchase " ++ nm ++ " less frequently for " ++ monthStr b.month ++ " due to low sales"
    created_at := now }

/-- The three lists returned by `analyze_sales_patterns`. -/
structure PatternOutput where
  restock_recommendations : List Recommendation
  avoid_restock : List Recommendation
  high_demand_periods : List Recommendation
deriving DecidableEq, Repr, Inhabited

/-- The `quantity` column of the monthly table
(`monthly_sales["quantity"]`). -/
def bucketQs (bs : List MonthlyBucket) : List ℚ :=
  bs.map fun b => (b.quantity : ℚ)

/-- Source `high_sales_threshold = mean_sales + monthly_sales["quantity"].std()`
over the reals, given the sample variance `v` (the standard deviation is
`√v`). -/
noncomputable def high_sales_threshold (bs : List MonthlyBucket) (v : ℚ) : ℝ :=
  ((qmean (bucketQs bs) : ℚ) : ℝ) + Real.sqrt ((v : ℚ) : ℝ)

/-- Source `low_sales_threshold = mean_sales - monthly_sales["quantity"].std()`
over the reals. -/
noncomputable def low_sales_threshold (bs : List MonthlyBucket) (v : ℚ) : ℝ :=
  ((qmean (bucketQs bs) : ℚ) : ℝ) - Real.sqrt ((v : ℚ) : ℝ)

/-- The number of emitted recommendation rows carrying the
(product, store, month) key of bucket `b`. -/
def keyCount (l : List Recommendation) (b : MonthlyBucket) : Nat :=
  l.countP fun r => decide (r.key = b.key)

/-- The bucket classification loop of `analyze_sales_patterns`: global
mean and sample standard deviation over all monthly totals, thresholds
mean ± std, then per bucket
`if quantity >= high: restock and high-demand elif quantity <= low: avoid`.
(The source visits buckets regrouped by pair; since the groupby output is
already sorted by (product, store, month), that visits each bucket exactly
once in list order, which the direct filters below reproduce.) -/
def analyze_buckets (pname sname : Int → Option String) (now : UTCTime)
    (bs : List MonthlyBucket) : PatternOutput :=
  let m := qmean (bucketQs bs)
  let v? := sampleVar? (bucketQs bs)
  { restock_recommendations :=
      (bs.filter fun b => highFlag m v? (b.quantity : ℚ)).map (mkRestockRec pname sname now)
    avoid_restock :=
      (bs.filter fun b => !highFlag m v? (b.quantity : ℚ) && lowFlag m v? (b.quantity : ℚ)).map
        (mkAvoidRec pname sname now)
    high_demand_periods :=
      (bs.filter fun b => highFlag m v? (b.quantity : ℚ)).map (mkHighDemandRec pname sname now) }

/-- Function `analyze_sales_patterns` of `recommendations.py`: empty input returns the
three empty lists (guarded by `if sales_df.empty`), otherwise the monthly
aggregation is classified against the global thresholds. -/
def analyze_sales_patterns (pname sname : Int → Option String) (now : UTCTime)
    (sales : List SaleRecord) : PatternOutput :=
  if sales = [] then { restock_recommendations := [], avoid_restock := [], high_demand_periods := [] }
  else analyze_buckets pname sname now (monthly_sales sales)

/-! ## Forecasting (`salesforcast.forecast_demand`) -/

def Sx (n : Nat) : ℚ :=
  ∑ i ∈ Finset.range n, (i : ℚ)

def Sxx (n : Nat) : ℚ :=
  ∑ i ∈ Finset.range n, (i : ℚ) ^ 2

def Sy (ys : List ℚ) : ℚ :=
  ∑ i ∈ Finset.range ys.length, ys.getD i 0

def Sxy (ys : List ℚ) : ℚ :=
  ∑ i ∈ Finset.range ys.length, (i : ℚ) * ys.getD i 0

/-- The ordinary-least-squares slope fitted by
`LinearRegression().fit(X, y)` with `X = [[0], [1], …, [n−1]]` — the
unique minimiser of the sum of squared residuals (`sse_minimal`). -/
def lsqSlope (ys : List ℚ) : ℚ :=
  ((ys.length : ℚ) * Sxy ys - Sx ys.length * Sy ys) /
    ((ys.length : ℚ) * Sxx ys.length - Sx ys.length ^ 2)

/-- The ordinary-least-squares intercept of the same fit. -/
def lsqIntercept (ys : List ℚ) : ℚ :=
  (Sy ys - lsqSlope ys * Sx ys.length) / (ys.length : ℚ)

/-- Source `model.predict([[len(product_data)]])[0]`: the fitted line evaluated
one index past the series. -/
def lsqPredictNext (ys : List ℚ) : ℚ :=
  lsqIntercept ys + lsqSlope ys * (ys.length : ℚ)

/-- Source `predicted_demand = max(0, model.predict([[len(product_data)]])[0])`. -/
def predicted_demand (ys : List ℚ) : ℚ :=
  max 0 (lsqPredictNext ys)

/-- The sum of squared residuals of an arbitrary line `q = a·i + b` over
the series, the objective `LinearRegression` minimises. -/
def SSE (ys : List ℚ) (a b : ℚ) : ℚ :=
  ∑ i ∈ Finset.range ys.length, (ys.getD i 0 - (a * (i : ℚ) + b)) ^ 2

/-- Python `round` to an integer: round half to even. -/
def pyRoundInt (q : ℚ) : ℤ :=
  let f := ⌊q⌋
  let r := q - (f : ℚ)
  if r < 1 / 2 then f
  else if 1 / 2 < r then f + 1
  else if f % 2 = 0 then f else f + 1

/-- Python `round(x, 2)` as applied to the stored `predicted_demand`. -/
def round2 (q : ℚ) : ℚ :=
  (pyRoundInt (q * 100) : ℚ) / 100

/-- A `dynamic_inventory` row (`reorder_level` is nullable in the
source: `inventory[0]["reorder_level"] is not None` is checked). -/
structure InventoryRow where
  available_qty : Int
  reorder_level : Option Int
deriving DecidableEq, Repr, Inhabited

/-- Either `"Restock recommended"` or `"No restock needed"`. -/
inductive ForecastRec where
  | Restock
  | NoRestock
deriving DecidableEq, Repr, Inhabited

/-- A `forecasts` row. -/
structure Forecast where
  dynamic_product_id : Int
  store_id : Int
  predicted_demand : ℚ
  current_stock : Int
  product_name : String
  shop_name : String
  recommendation : ForecastRec
  forecast_period : Nat × Nat
  created_at : UTCTime
deriving DecidableEq, Repr, Inhabited

/-- Source `current_stock = int(inventory[0]["available_qty"]) if inventory else 0`. -/
def currentStockOf (inv? : Option InventoryRow) : Int :=
  match inv? with
  | none => 0
  | some row => row.available_qty

/-- Source `reorder_level = int(inventory[0]["reorder_level"]) if inventory and
inventory[0]["reorder_level"] is not None else 0`. -/
def reorderLevelOf (inv? : Option InventoryRow) : Int :=
  match inv? with
  | none => 0
  | some row => row.reorder_level.getD 0

/-- The per-pair body of the `forecast_demand` loop: pairs with fewer
than two monthly points are skipped (`continue`), otherwise a linear
trend is fitted over month indices 0,1,2,…, extrapolated to the next
index, clamped at 0, rounded to two decimals for storage, and compared
strictly against current stock plus reorder level.  `period` stands for
`(datetime.now(utc) + timedelta(days=30)).strftime("%Y-%m")`. -/
def forecast_pair (pname sname : Int → Option String) (inv? : Option InventoryRow)
    (period : Nat × Nat) (now : UTCTime) (pid sid : Int) (ys : List ℚ) : Option Forecast :=
  if ys.length < 2 then none
  else
    let pred := predicted_demand ys
    some
      { dynamic_product_id := pid
        store_id := sid
        predicted_demand := round2 pred
        current_stock := currentStockOf inv?
        product_name := displayName pname productFallback pid
        shop_name := displayName sname storeFallback sid
        recommendation :=
          if ((currentStockOf inv? + reorderLevelOf inv? : ℤ) : ℚ) < pred then .Restock
          else .NoRestock
        forecast_period := period
        created_at := now }

/-- The `sort_values("month")` key: lexicographic order on (year, month),
which is exactly the string order of the zero-padded "YYYY-MM" labels. -/
def monthLe (a b : Nat × Nat) : Bool :=
  decide (a.1 < b.1) || (decide (a.1 = b.1) && decide (a.2 ≤ b.2))

/-- One pair's ordered monthly series: its buckets sorted by month,
projected to the monthly totals. -/
def pairSeries (sales : List SaleRecord) (p : Int × Int) : List ℚ :=
  ((((monthly_sales sales).filter fun b => b.pairKey = p).mergeSort
      fun a b => monthLe a.month b.month).map fun b => (b.quantity : ℚ))

/-- Function `forecast_demand` of `salesforcast.py` over the fetched sales rows: on an
empty table, `pd.DataFrame([])["sold_at"]` raises a `KeyError`; otherwise
each (product, store) pair's ordered monthly series is forecast, skipping
pairs with fewer than two points.  `inv` is the per-pair
`dynamic_inventory` lookup. -/
def forecast_demand (pname sname : Int → Option String)
    (inv : Int → Int → Option InventoryRow) (period : Nat × Nat) (now : UTCTime)
    (sales : List SaleRecord) : Except String (List Forecast) :=
  if sales = [] then .error keyErrorSoldAt
  else .ok ((salePairs sales).filterMap fun p =>
    forecast_pair pname sname (inv p.1 p.2) period now p.1 p.2 (pairSeries sales p))

/-! ## The `/recommendations` endpoint (`recommendations_endpoint`) -/

/-- The value of the Python variable `store_id` along the endpoint's
control flow: `request.args.get` yields `None` or a string, and a
successful `int(store_id)` rebinds it to an integer. -/
inductive PyVal where
  | none
  | str (s : String)
  | int (n : Int)
deriving DecidableEq, Repr, Inhabited

/-- Python truthiness of the `store_id` variable (`if store_id:`): `None`,
the empty string and the integer 0 are falsy. -/
def PyVal.truthy : PyVal → Bool
  | .none => false
  | .str s => !s.data.isEmpty
  | .int n => decide (n ≠ 0)

def digitsVal (cs : List Char) : Nat :=
  cs.foldl (fun a c => a * 10 + (c.toNat - 48)) 0

/-- Python `int(s)` on a string: optional surrounding whitespace, an
optional sign, then at least one digit; anything else raises
`ValueError`, modelled as `none`. -/
def pyToInt (s : String) : Option Int :=
  let t := ((s.data.dropWhile Char.isWhitespace).reverse.dropWhile Char.isWhitespace).reverse
  match t with
  | [] => none
  | c :: rest =>
    let core := if c = '-' ∨ c = '+' then rest else t
    if core ≠ [] ∧ core.all Char.isDigit then
      some (if c = '-' then -(digitsVal core : Int) else (digitsVal core : Int))
    else none

def invalidStoreMsg : String := "Invalid store_id format"

def internalErrorPre : String := "Internal Server Error: "

/-- The computation the endpoint runs after validation:
`detect_anomalies(store_id)` then `analyze_sales_patterns(store_id)`,
with the surrounding `try/except` turning any raised exception into a
500 response carrying the diagnostic message. -/
def run_recommendations {α β : Type} (anom : PyVal → Except String α)
    (pats : PyVal → Except String β) (v : PyVal) : Nat × Except String (α × β) :=
  match anom v with
  | .error e => (500, .error (internalErrorPre ++ e))
  | .ok a =>
    match pats v with
    | .error e => (500, .error (internalErrorPre ++ e))
    | .ok b => (200, .ok (a, b))

/-- The `/recommendations` endpoint: reads the optional `store_id` query
parameter; if it is truthy, parses it as an integer, returning status 400
on `ValueError` without running any computation; then runs the pipeline
on whatever the `store_id` variable holds. -/
def recommendations_endpoint {α β : Type} (anom : PyVal → Except String α)
    (pats : PyVal → Except String β) (storeParam : Option String) :
    Nat × Except String (α × β) :=
  match storeParam with
  | Option.none => run_recommendations anom pats .none
  | Option.some s =>
    if (PyVal.str s).truthy then
      match pyToInt s with
      | Option.none => (400, .error invalidStoreMsg)
      | Option.some n => run_recommendations anom pats (.int n)
    else run_recommendations anom pats (.str s)

/-! ## Concrete instantiations used by witnesses and counterexamples -/

/-- Empty display-name lookup (every id falls back to the source's
f-string). -/
def noName : Int → Option String := fun _ => Option.none

/-- Empty inventory lookup (`dynamic_inventory` has no matching row). -/
def noInv : Int → Int → Option InventoryRow := fun _ _ => Option.none

/-- A fixed run time. -/
def epoch : UTCTime := ⟨2024, 1, 1, 0, 0, 0⟩

/-- A forest that flags nothing (one possible behaviour of the abstract
isolation forest). -/
def nullForest : List ℚ → Except String (List Bool) := fun qs => .ok (qs.map fun _ => false)

/-- Two buckets of the same pair with identical totals: sample standard
deviation 0, both thresholds collapsed onto the mean. -/
def twoEqualBuckets : List MonthlyBucket :=
  [⟨1, 1, (2024, 1), 5⟩, ⟨1, 1, (2024, 2), 5⟩]

/-- Three buckets with totals 10, 10, 100. -/
def spikeBuckets : List MonthlyBucket :=
  [⟨1, 1, (2024, 1), 10⟩, ⟨1, 1, (2024, 2), 10⟩, ⟨2, 1, (2024, 1), 100⟩]

/-- A single concrete sale record. -/
def oneSale : SaleRecord := ⟨7, 3, 4, ⟨2024, 5, 17, 12, 0, 0⟩⟩

end SalesAI

open SalesAI

/-! ## Aggregation lemmas -/

theorem key_monthly_bucket (sales : List SaleRecord) (k : Int × Int × Nat × Nat) :
    (MonthlyBucket.key
      { dynamic_product_id := k.1
        store_id := k.2.1
        month := k.2.2
        quantity := ((sales.filter fun r => r.key = k).map SaleRecord.quantity).sum }) = k := by
  simp [MonthlyBucket.key]

theorem monthly_sales_map_key (sales : List SaleRecord) :
    (monthly_sales sales).map MonthlyBucket.key = (sales.map SaleRecord.key).dedup := by
  unfold monthly_sales
  rw [List.map_map]
  conv_rhs => rw [← List.map_id ((sales.map SaleRecord.key).dedup)]
  apply List.map_congr_left
  intro k _
  exact key_monthly_bucket sales k

/-! ## Statistics lemmas -/

theorem popVar_nonneg (xs : List ℚ) : 0 ≤ popVar xs := by
  unfold popVar
  apply div_nonneg
  · apply List.sum_nonneg
    intro x hx
    rw [List.mem_map] at hx
    obtain ⟨y, _, rfl⟩ := hx
    positivity
  · positivity

theorem popStd_pos_iff (xs : List ℚ) : 0 < popStd xs ↔ 0 < popVar xs := by
  unfold popStd
  rw [Real.sqrt_pos]
  exact_mod_cast Iff.rfl

theorem abs_zscore_gt_three_iff (xs : List ℚ) (i : Nat) :
    3 < |zscore xs i| ↔
      (0 < popVar xs ∧ 9 * popVar xs < (xs.getD i 0 - qmean xs) ^ 2) := by
  unfold zscore
  by_cases hv : 0 < popVar xs
  · have hs : 0 < popStd xs := (popStd_pos_iff xs).mpr hv
    rw [if_pos hs]
    set a : ℝ := ((xs.getD i 0 : ℚ) : ℝ) - ((qmean xs : ℚ) : ℝ) with ha
    rw [abs_div, abs_of_pos hs, lt_div_iff₀ hs]
    have h9 : (3 : ℝ) * popStd xs = Real.sqrt (9 * ((popVar xs : ℚ) : ℝ)) := by
      rw [Real.sqrt_mul (by norm_num : (0:ℝ) ≤ 9)]
      have : Real.sqrt 9 = 3 := by
        rw [show (9 : ℝ) = 3 ^ 2 by norm_num, Real.sqrt_sq (by norm_num : (0:ℝ) ≤ 3)]
      rw [this, popStd]
    rw [h9]
    rcases eq_or_ne a 0 with h0 | h0
    · simp only [h0, abs_zero]
      constructor
      · intro h
        exact absurd (lt_of_le_of_lt (Real.sqrt_nonneg _) h) (lt_irrefl 0)
      · rintro ⟨-, hlt⟩
        have hq : ((9 * popVar xs : ℚ) : ℝ) < ((xs.getD i 0 - qmean xs : ℚ) : ℝ) ^ 2 := by
          push_cast
          exact_mod_cast hlt
        have : ((xs.getD i 0 - qmean xs : ℚ) : ℝ) = a := by push_cast [ha]; ring
        rw [this, h0] at hq
        have hvr : (0:ℝ) < ((popVar xs : ℚ) : ℝ) := by exact_mod_cast hv
        simp at hq
        nlinarith [hq, hvr]
    · have habs : 0 < |a| := abs_pos.mpr h0
      rw [Real.sqrt_lt' habs, sq_abs]
      have hcast : a = ((xs.getD i 0 - qmean xs : ℚ) : ℝ) := by push_cast [ha]; ring
      constructor
      · intro h
        refine ⟨hv, ?_⟩
        rw [hcast] at h
        exact_mod_cast h
      · rintro ⟨-, h⟩
        rw [hcast]
        exact_mod_cast h
  · have hv0 : popVar xs = 0 := le_antisymm (not_lt.mp hv) (popVar_nonneg xs)
    have hs : ¬ 0 < popStd xs := by
      rw [popStd_pos_iff]
      exact hv
    rw [if_neg hs]
    simp [hv0]

theorem zscore_pos_iff (xs : List ℚ) (i : Nat) :
    0 < zscore xs i ↔ (0 < popVar xs ∧ qmean xs < xs.getD i 0) := by
  unfold zscore
  by_cases hv : 0 < popVar xs
  · have hs : 0 < popStd xs := (popStd_pos_iff xs).mpr hv
    rw [if_pos hs, div_pos_iff]
    constructor
    · rintro (⟨h, -⟩ | ⟨-, h⟩)
      · refine ⟨hv, ?_⟩
        rw [sub_pos] at h
        exact_mod_cast h
      · exact absurd hs (not_lt.mpr (le_of_lt h))
    · rintro ⟨-, h⟩
      left
      refine ⟨?_, hs⟩
      rw [sub_pos]
      exact_mod_cast h
  · have hs : ¬ 0 < popStd xs := by
      rw [popStd_pos_iff]
      exact hv
    rw [if_neg hs]
    constructor
    · intro h
      exact absurd h (lt_irrefl 0)
    · rintro ⟨h, -⟩
      exact absurd h hv

theorem mem_anomaly_indices (xs : List ℚ) (i : Nat) (hi : i < xs.length) :
    i ∈ anomaly_indices xs ↔ (3 ≤ xs.length ∧ zFlag xs i = true) := by
  unfold anomaly_indices
  by_cases h3 : xs.length < 3
  · simp [h3, Nat.not_le.mpr h3]
  · simp [h3, List.mem_filter, List.mem_range, hi, Nat.not_lt.mp h3]

/-! ## Claim C1 -/

/-- C1: the monthly aggregation produces exactly one bucket per distinct
(product, store, month) key — the bucket keys are pairwise distinct and a
key has a bucket iff some sale record has that key — and each bucket's
total equals the sum of the quantities of exactly the input records whose
product, store and UTC calendar month match the key. -/
theorem C1_monthly_aggregation_exact (sales : List SaleRecord) :
    ((monthly_sales sales).map MonthlyBucket.key).Nodup ∧
    (∀ k, (∃ b ∈ monthly_sales sales, b.key = k) ↔ ∃ r ∈ sales, r.key = k) ∧
    ∀ b ∈ monthly_sales sales,
      b.quantity = ((sales.filter fun r => r.key = b.key).map SaleRecord.quantity).sum := by
  refine ⟨?_, ?_, ?_⟩
  · rw [monthly_sales_map_key]
    exact List.nodup_dedup _
  · intro k
    constructor
    · rintro ⟨b, hb, rfl⟩
      have : b.key ∈ (monthly_sales sales).map MonthlyBucket.key :=
        List.mem_map_of_mem _ hb
      rw [monthly_sales_map_key, List.mem_dedup, List.mem_map] at this
      obtain ⟨r, hr, hrk⟩ := this
      exact ⟨r, hr, hrk⟩
    · rintro ⟨r, hr, rfl⟩
      have hk : r.key ∈ (sales.map SaleRecord.key).dedup := by
        rw [List.mem_dedup, List.mem_map]
        exact ⟨r, hr, rfl⟩
      refine ⟨_, List.mem_map_of_mem _ hk, key_monthly_bucket sales r.key⟩
  · intro b hb
    unfold monthly_sales at hb
    rw [List.mem_map] at hb
    obtain ⟨k, _, rfl⟩ := hb
    rw [key_monthly_bucket]

/-! ## Claim C2 -/

/-- C2: on a per-pair series, a point is flagged iff the series has at
least 3 points and the absolute z-score (z = (q − μ)/σ for population σ,
z = 0 when σ = 0) exceeds 3; a flagged point is classified High iff its
z-score is positive and Low otherwise, and a series shorter than 3 points
yields no anomalies at all. -/
theorem C2_zscore_flagging (xs : List ℚ) (i : Nat) (hi : i < xs.length) :
    (i ∈ anomaly_indices xs ↔ (3 ≤ xs.length ∧ 3 < |zscore xs i|)) ∧
    (i ∈ anomaly_indices xs → (zType xs i = .High ↔ 0 < zscore xs i)) ∧
    (i ∈ anomaly_indices xs → (zType xs i = .Low ↔ ¬ 0 < zscore xs i)) ∧
    (xs.length < 3 → anomaly_indices xs = []) := by
  have hflag : ∀ j, zFlag xs j = true ↔
      (0 < popVar xs ∧ 9 * popVar xs < (xs.getD j 0 - qmean xs) ^ 2) := by
    intro j
    simp [zFlag]
  have htype : i ∈ anomaly_indices xs → (zType xs i = .High ↔ 0 < zscore xs i) := by
    intro hmem
    rw [mem_anomaly_indices xs i hi, hflag] at hmem
    obtain ⟨-, hv, -⟩ := hmem
    rw [zscore_pos_iff]
    unfold zType
    by_cases hq : qmean xs < xs.getD i 0
    · simp [hv, hq]
    · simp [hq]
  refine ⟨?_, htype, ?_, ?_⟩
  · rw [mem_anomaly_indices xs i hi, hflag, abs_zscore_gt_three_iff]
  · intro hmem
    unfold zType
    by_cases hc : 0 < popVar xs ∧ qmean xs < xs.getD i 0
    · simp [if_pos hc, zscore_pos_iff, hc]
    · simp [if_neg hc, zscore_pos_iff, hc]
  · intro h3
    unfold anomaly_indices
    rw [if_pos h3]

theorem C2_zscore_flagging_witness :
    4 < ([(10:ℚ), 10, 10, 10, 100]).length ∧
    ((4 ∈ anomaly_indices [(10:ℚ), 10, 10, 10, 100] ↔
        (3 ≤ ([(10:ℚ), 10, 10, 10, 100]).length ∧
         3 < |zscore [(10:ℚ), 10, 10, 10, 100] 4|)) ∧
     (4 ∈ anomaly_indices [(10:ℚ), 10, 10, 10, 100] →
        (zType [(10:ℚ), 10, 10, 10, 100] 4 = .High ↔
         0 < zscore [(10:ℚ), 10, 10, 10, 100] 4)) ∧
     (4 ∈ anomaly_indices [(10:ℚ), 10, 10, 10, 100] →
        (zType [(10:ℚ), 10, 10, 10, 100] 4 = .Low ↔
         ¬ 0 < zscore [(10:ℚ), 10, 10, 10, 100] 4)) ∧
     (([(10:ℚ), 10, 10, 10, 100]).length < 3 →
        anomaly_indices [(10:ℚ), 10, 10, 10, 100] = [])) :=
  ⟨by decide, C2_zscore_flagging [(10:ℚ), 10, 10, 10, 100] 4 (by decide)⟩

/-! ## Claim C6 -/

theorem series1_qmean : qmean [(10:ℚ), 10, 10, 10, 100] = 28 := by
  norm_num [qmean]

theorem series1_popVar : popVar [(10:ℚ), 10, 10, 10, 100] = 1296 := by
  norm_num [popVar, series1_qmean]

theorem series1_flag_false (i : Nat) : zFlag [(10:ℚ), 10, 10, 10, 100] i = false := by
  match i with
  | 0 => norm_num [zFlag, series1_qmean, series1_popVar]
  | 1 => norm_num [zFlag, series1_qmean, series1_popVar]
  | 2 => norm_num [zFlag, series1_qmean, series1_popVar]
  | 3 => norm_num [zFlag, series1_qmean, series1_popVar]
  | 4 => norm_num [zFlag, series1_qmean, series1_popVar]
  | (n + 5) => norm_num [zFlag, series1_qmean, series1_popVar, List.getD]

theorem series1_no_anomaly : anomaly_indices [(10:ℚ), 10, 10, 10, 100] = [] := by
  norm_num [anomaly_indices, List.range_succ, series1_flag_false]

/-- C6 fails on the code: for the series [10, 10, 10, 10, 100] the
population mean is 28 and the population variance is 1296 (standard
deviation 36), so the z-score of the point 100 is exactly 2, not above 3,
and the detector flags no anomaly at all (the flagged index list is empty,
not a singleton). -/
theorem C6_counterexample :
    anomaly_indices [(10:ℚ), 10, 10, 10, 100] = [] ∧
    popVar [(10:ℚ), 10, 10, 10, 100] = 1296 ∧
    qmean [(10:ℚ), 10, 10, 10, 100] = 28 :=
  ⟨series1_no_anomaly, series1_popVar, series1_qmean⟩

/-- C6 amended: on the series [10, 10, 10, 10, 100] the z-score detector
flags zero anomalies — the z-score of the point 100 is exactly 2, which
does not exceed the threshold 3. -/
theorem C6_amended_no_anomaly :
    anomaly_indices [(10:ℚ), 10, 10, 10, 100] = [] ∧
    zscore [(10:ℚ), 10, 10, 10, 100] 4 = 2 := by
  have hq : ([(10:ℚ), 10, 10, 10, 100]).getD 4 0 = 100 := by norm_num [List.getD]
  have hstd : popStd [(10:ℚ), 10, 10, 10, 100] = 36 := by
    unfold popStd
    rw [series1_popVar, show (((1296:ℚ):ℝ)) = 36 ^ 2 by norm_num]
    exact Real.sqrt_sq (by norm_num)
  refine ⟨series1_no_anomaly, ?_⟩
  unfold zscore
  rw [if_pos (by rw [hstd]; norm_num), hstd, series1_qmean, hq]
  norm_num

/-! ## Pattern-analysis lemmas -/

theorem sampleVar?_nonneg (xs : List ℚ) (v : ℚ) (h : sampleVar? xs = some v) : 0 ≤ v := by
  unfold sampleVar? at h
  by_cases hl : xs.length < 2
  · rw [if_pos hl] at h
    cases h
  · rw [if_neg hl] at h
    injection h with h
    subst h
    apply div_nonneg
    · apply List.sum_nonneg
      intro x hx
      rw [List.mem_map] at hx
      obtain ⟨y, -, rfl⟩ := hx
      positivity
    · have h2 : (2 : ℚ) ≤ (xs.length : ℚ) := by exact_mod_cast Nat.not_lt.mp hl
      linarith

theorem sampleVar?_of_length_lt_two (xs : List ℚ) (h : xs.length < 2) :
    sampleVar? xs = none := by
  unfold sampleVar?
  rw [if_pos h]

theorem sampleVar?_isSome_of_two_le (xs : List ℚ) (h : 2 ≤ xs.length) :
    ∃ v, sampleVar? xs = some v := by
  unfold sampleVar?
  rw [if_neg (Nat.not_lt.mpr h)]
  exact ⟨_, rfl⟩

theorem highFlag_iff (bs : List MonthlyBucket) (v q : ℚ) :
    highFlag (qmean (bucketQs bs)) (some v) q = true ↔
      high_sales_threshold bs v ≤ (q : ℝ) := by
  unfold highFlag high_sales_threshold
  rw [Bool.and_eq_true, decide_eq_true_eq, decide_eq_true_eq]
  set m : ℚ := qmean (bucketQs bs)
  have hshape : ((m : ℚ) : ℝ) + Real.sqrt ((v : ℚ) : ℝ) ≤ (q : ℝ) ↔
      Real.sqrt ((v : ℚ) : ℝ) ≤ ((q : ℝ) - ((m : ℚ) : ℝ)) := by
    constructor <;> intro h <;> linarith
  rw [hshape, Real.sqrt_le_iff]
  constructor
  · rintro ⟨h1, h2⟩
    constructor
    · exact_mod_cast h1
    · exact_mod_cast h2
  · rintro ⟨h1, h2⟩
    constructor
    · exact_mod_cast h1
    · exact_mod_cast h2

theorem lowFlag_iff (bs : List MonthlyBucket) (v q : ℚ) :
    lowFlag (qmean (bucketQs bs)) (some v) q = true ↔
      (q : ℝ) ≤ low_sales_threshold bs v := by
  unfold lowFlag low_sales_threshold
  rw [Bool.and_eq_true, decide_eq_true_eq, decide_eq_true_eq]
  set m : ℚ := qmean (bucketQs bs)
  have hshape : (q : ℝ) ≤ ((m : ℚ) : ℝ) - Real.sqrt ((v : ℚ) : ℝ) ↔
      Real.sqrt ((v : ℚ) : ℝ) ≤ (((m : ℚ) : ℝ) - (q : ℝ)) := by
    constructor <;> intro h <;> linarith
  rw [hshape, Real.sqrt_le_iff]
  constructor
  · rintro ⟨h1, h2⟩
    constructor
    · exact_mod_cast h1
    · exact_mod_cast h2
  · rintro ⟨h1, h2⟩
    constructor
    · exact_mod_cast h1
    · exact_mod_cast h2

theorem mkRestockRec_key (pn sn : Int → Option String) (now : UTCTime) (b : MonthlyBucket) :
    (mkRestockRec pn sn now b).key = b.key := rfl

theorem mkHighDemandRec_key (pn sn : Int → Option String) (now : UTCTime) (b : MonthlyBucket) :
    (mkHighDemandRec pn sn now b).key = b.key := rfl

theorem mkAvoidRec_key (pn sn : Int → Option String) (now : UTCTime) (b : MonthlyBucket) :
    (mkAvoidRec pn sn now b).key = b.key := rfl

theorem countP_key_and (bs : List MonthlyBucket) (hn : (bs.map MonthlyBucket.key).Nodup)
    (b : MonthlyBucket) (hb : b ∈ bs) (g : MonthlyBucket → Bool) :
    (bs.countP fun x => decide (x.key = b.key) && g x) = if g b then 1 else 0 := by
  induction bs with
  | nil => cases hb
  | cons a t ih =>
    rw [List.map_cons, List.nodup_cons] at hn
    obtain ⟨hak, hnt⟩ := hn
    rw [List.countP_cons]
    rcases List.mem_cons.mp hb with rfl | hbt
    · have ht0 : (t.countP fun x => decide (x.key = b.key) && g x) = 0 := by
        rw [List.countP_eq_zero]
        intro x hx hpx
        rw [Bool.and_eq_true, decide_eq_true_eq] at hpx
        exact hak (hpx.1 ▸ List.mem_map_of_mem MonthlyBucket.key hx)
      rw [ht0]
      by_cases hg : g b
      · simp [hg]
      · simp [hg]
    · have hne : ¬(a.key = b.key) := fun h => hak (h ▸ List.mem_map_of_mem _ hbt)
      rw [ih hnt hbt]
      simp [hne]

theorem count_key_filter_map (bs : List MonthlyBucket) (hn : (bs.map MonthlyBucket.key).Nodup)
    (b : MonthlyBucket) (hb : b ∈ bs) (g : MonthlyBucket → Bool)
    (mk : MonthlyBucket → Recommendation) (hmk : ∀ x, (mk x).key = x.key) :
    (((bs.filter g).map mk).countP fun r => decide (r.key = b.key)) = if g b then 1 else 0 := by
  rw [List.countP_map]
  have harg : (fun x => decide ((mk x).key = b.key)) = fun x => decide (x.key = b.key) := by
    funext x
    rw [hmk]
  calc ((bs.filter g).countP fun x => decide ((mk x).key = b.key))
      = (bs.filter g).countP fun x => decide (x.key = b.key) := by rw [harg]
    _ = bs.countP fun x => decide (x.key = b.key) && g x := List.countP_filter _ _ _
    _ = if g b then 1 else 0 := countP_key_and bs hn b hb g

theorem keyCount_restock (pn sn : Int → Option String) (now : UTCTime)
    (bs : List MonthlyBucket) (hn : (bs.map MonthlyBucket.key).Nodup)
    (b : MonthlyBucket) (hb : b ∈ bs) :
    keyCount (analyze_buckets pn sn now bs).restock_recommendations b =
      if highFlag (qmean (bucketQs bs)) (sampleVar? (bucketQs bs)) (b.quantity : ℚ) then 1
      else 0 :=
  count_key_filter_map bs hn b hb _ _ (mkRestockRec_key pn sn now)

theorem keyCount_high_demand (pn sn : Int → Option String) (now : UTCTime)
    (bs : List MonthlyBucket) (hn : (bs.map MonthlyBucket.key).Nodup)
    (b : MonthlyBucket) (hb : b ∈ bs) :
    keyCount (analyze_buckets pn sn now bs).high_demand_periods b =
      if highFlag (qmean (bucketQs bs)) (sampleVar? (bucketQs bs)) (b.quantity : ℚ) then 1
      else 0 :=
  count_key_filter_map bs hn b hb _ _ (mkHighDemandRec_key pn sn now)

theorem keyCount_avoid (pn sn : Int → Option String) (now : UTCTime)
    (bs : List MonthlyBucket) (hn : (bs.map MonthlyBucket.key).Nodup)
    (b : MonthlyBucket) (hb : b ∈ bs) :
    keyCount (analyze_buckets pn sn now bs).avoid_restock b =
      if !highFlag (qmean (bucketQs bs)) (sampleVar? (bucketQs bs)) (b.quantity : ℚ) &&
          lowFlag (qmean (bucketQs bs)) (sampleVar? (bucketQs bs)) (b.quantity : ℚ) then 1
      else 0 :=
  count_key_filter_map bs hn b hb _ _ (mkAvoidRec_key pn sn now)

theorem highFlag_none (m q : ℚ) : highFlag m none q = false := rfl

theorem lowFlag_none (m q : ℚ) : lowFlag m none q = false := rfl

/-! ## Claim C3 -/

/-- C3 amended: with at least two monthly buckets (so that the sample
standard deviation is a number) and pairwise-distinct bucket keys, a
bucket at or above the high threshold mean + std yields exactly one
Restock row and one HighDemand row and no Avoid row; a bucket at or below
the low threshold mean − std AND strictly below the high threshold yields
exactly one Avoid row and nothing else; a bucket strictly between the
thresholds yields nothing.  The source's `elif` gives the high branch
priority, which forces the extra "strictly below the high threshold"
condition in the Avoid case when the thresholds collapse (std = 0). -/
theorem C3_threshold_classification (pn sn : Int → Option String) (now : UTCTime)
    (bs : List MonthlyBucket) (v : ℚ)
    (hn : (bs.map MonthlyBucket.key).Nodup)
    (hv : sampleVar? (bucketQs bs) = some v)
    (b : MonthlyBucket) (hb : b ∈ bs) :
    (high_sales_threshold bs v ≤ ((b.quantity : ℚ) : ℝ) →
       keyCount (analyze_buckets pn sn now bs).restock_recommendations b = 1 ∧
       keyCount (analyze_buckets pn sn now bs).high_demand_periods b = 1 ∧
       keyCount (analyze_buckets pn sn now bs).avoid_restock b = 0) ∧
    (((b.quantity : ℚ) : ℝ) ≤ low_sales_threshold bs v ∧
       ((b.quantity : ℚ) : ℝ) < high_sales_threshold bs v →
       keyCount (analyze_buckets pn sn now bs).restock_recommendations b = 0 ∧
       keyCount (analyze_buckets pn sn now bs).high_demand_periods b = 0 ∧
       keyCount (analyze_buckets pn sn now bs).avoid_restock b = 1) ∧
    (low_sales_threshold bs v < ((b.quantity : ℚ) : ℝ) ∧
       ((b.quantity : ℚ) : ℝ) < high_sales_threshold bs v →
       keyCount (analyze_buckets pn sn now bs).restock_recommendations b = 0 ∧
       keyCount (analyze_buckets pn sn now bs).high_demand_periods b = 0 ∧
       keyCount (analyze_buckets pn sn now bs).avoid_restock b = 0) := by
  have hrestock := keyCount_restock pn sn now bs hn b hb
  have hhighd := keyCount_high_demand pn sn now bs hn b hb
  have havoid := keyCount_avoid pn sn now bs hn b hb
  rw [hv] at hrestock hhighd havoid
  refine ⟨?_, ?_, ?_⟩
  · intro hcase
    have hH : highFlag (qmean (bucketQs bs)) (some v) (b.quantity : ℚ) = true :=
      (highFlag_iff bs v _).mpr hcase
    rw [hH] at hrestock hhighd havoid
    simp at hrestock hhighd havoid
    exact ⟨hrestock, hhighd, havoid⟩
  · rintro ⟨hlow, hnothigh⟩
    have hH : highFlag (qmean (bucketQs bs)) (some v) (b.quantity : ℚ) = false := by
      rw [Bool.eq_false_iff]
      intro h
      exact absurd ((highFlag_iff bs v _).mp h) (not_le.mpr hnothigh)
    have hL : lowFlag (qmean (bucketQs bs)) (some v) (b.quantity : ℚ) = true :=
      (lowFlag_iff bs v _).mpr hlow
    rw [hH] at hrestock hhighd
    rw [hH, hL] at havoid
    simp at hrestock hhighd havoid
    exact ⟨hrestock, hhighd, havoid⟩
  · rintro ⟨habovelow, hnothigh⟩
    have hH : highFlag (qmean (bucketQs bs)) (some v) (b.quantity : ℚ) = false := by
      rw [Bool.eq_false_iff]
      intro h
      exact absurd ((highFlag_iff bs v _).mp h) (not_le.mpr hnothigh)
    have hL : lowFlag (qmean (bucketQs bs)) (some v) (b.quantity : ℚ) = false := by
      rw [Bool.eq_false_iff]
      intro h
      exact absurd ((lowFlag_iff bs v _).mp h) (not_le.mpr habovelow)
    rw [hH] at hrestock hhighd
    rw [hH, hL] at havoid
    simp at hrestock hhighd havoid
    exact ⟨hrestock, hhighd, havoid⟩

theorem spike_qmean : qmean (bucketQs spikeBuckets) = 40 := by
  norm_num [qmean, bucketQs, spikeBuckets]

theorem spike_sampleVar : sampleVar? (bucketQs spikeBuckets) = some 2700 := by
  norm_num [sampleVar?, bucketQs, spikeBuckets, qmean]

theorem C3_threshold_classification_witness :
    ((spikeBuckets.map MonthlyBucket.key).Nodup ∧
     sampleVar? (bucketQs spikeBuckets) = some 2700 ∧
     (⟨2, 1, (2024, 1), 100⟩ : MonthlyBucket) ∈ spikeBuckets) ∧
    ((high_sales_threshold spikeBuckets 2700 ≤
        (((⟨2, 1, (2024, 1), 100⟩ : MonthlyBucket).quantity : ℚ) : ℝ) →
       keyCount (analyze_buckets noName noName epoch spikeBuckets).restock_recommendations
           ⟨2, 1, (2024, 1), 100⟩ = 1 ∧
       keyCount (analyze_buckets noName noName epoch spikeBuckets).high_demand_periods
           ⟨2, 1, (2024, 1), 100⟩ = 1 ∧
       keyCount (analyze_buckets noName noName epoch spikeBuckets).avoid_restock
           ⟨2, 1, (2024, 1), 100⟩ = 0) ∧
     ((((⟨2, 1, (2024, 1), 100⟩ : MonthlyBucket).quantity : ℚ) : ℝ) ≤
          low_sales_threshold spikeBuckets 2700 ∧
        (((⟨2, 1, (2024, 1), 100⟩ : MonthlyBucket).quantity : ℚ) : ℝ) <
          high_sales_threshold spikeBuckets 2700 →
       keyCount (analyze_buckets noName noName epoch spikeBuckets).restock_recommendations
           ⟨2, 1, (2024, 1), 100⟩ = 0 ∧
       keyCount (analyze_buckets noName noName epoch spikeBuckets).high_demand_periods
           ⟨2, 1, (2024, 1), 100⟩ = 0 ∧
       keyCount (analyze_buckets noName noName epoch spikeBuckets).avoid_restock
           ⟨2, 1, (2024, 1), 100⟩ = 1) ∧
     (low_sales_threshold spikeBuckets 2700 <
          (((⟨2, 1, (2024, 1), 100⟩ : MonthlyBucket).quantity : ℚ) : ℝ) ∧
        (((⟨2, 1, (2024, 1), 100⟩ : MonthlyBucket).quantity : ℚ) : ℝ) <
          high_sales_threshold spikeBuckets 2700 →
       keyCount (analyze_buckets noName noName epoch spikeBuckets).restock_recommendations
           ⟨2, 1, (2024, 1), 100⟩ = 0 ∧
       keyCount (analyze_buckets noName noName epoch spikeBuckets).high_demand_periods
           ⟨2, 1, (2024, 1), 100⟩ = 0 ∧
       keyCount (analyze_buckets noName noName epoch spikeBuckets).avoid_restock
           ⟨2, 1, (2024, 1), 100⟩ = 0)) :=
  ⟨⟨by decide, spike_sampleVar, by decide⟩,
   C3_threshold_classification noName noName epoch spikeBuckets 2700 (by decide)
     spike_sampleVar ⟨2, 1, (2024, 1), 100⟩ (by decide)⟩

theorem twoEq_qmean : qmean (bucketQs twoEqualBuckets) = 5 := by
  norm_num [qmean, bucketQs, twoEqualBuckets]

theorem twoEq_sampleVar : sampleVar? (bucketQs twoEqualBuckets) = some 0 := by
  norm_num [sampleVar?, bucketQs, twoEqualBuckets, qmean]

/-- C3 fails as stated on the code: for two buckets of the same pair both
totalling 5 the mean is 5 and the sample standard deviation is 0, so both
thresholds collapse to 5 and the first bucket's total satisfies
`total_quantity ≤ lowThreshold`; the claim then demands exactly one
Avoid-Restock row for that bucket, but the source's `elif` classifies it
Restock / HighDemand and the avoid list comes out empty. -/
theorem C3_counterexample :
    sampleVar? (bucketQs twoEqualBuckets) = some 0 ∧
    ((((twoEqualBuckets.getD 0 default).quantity : ℚ) : ℝ) ≤
        low_sales_threshold twoEqualBuckets 0) ∧
    (analyze_buckets noName noName epoch twoEqualBuckets).avoid_restock = [] ∧
    keyCount (analyze_buckets noName noName epoch twoEqualBuckets).avoid_restock
      (twoEqualBuckets.getD 0 default) = 0 := by
  have hq0 : (twoEqualBuckets.getD 0 default).quantity = 5 := by decide
  have hempty : (analyze_buckets noName noName epoch twoEqualBuckets).avoid_restock = [] := by
    simp only [analyze_buckets, twoEq_qmean, twoEq_sampleVar]
    norm_num [twoEqualBuckets, List.filter_cons, List.filter_nil, highFlag]
  refine ⟨twoEq_sampleVar, ?_, hempty, ?_⟩
  · unfold low_sales_threshold
    rw [twoEq_qmean, hq0]
    norm_num
  · rw [hempty]
    simp [keyCount]

/-! ## Claim C9 -/

/-- C9: a monthly bucket is never classified both ways — it cannot carry
both a Restock row and an Avoid-Restock row; and when the sample standard
deviation is 0 and a bucket's total equals the collapsed thresholds (the
mean), the bucket gets the Restock and HighDemand rows and no Avoid row. -/
theorem C9_exclusive_classification (pn sn : Int → Option String) (now : UTCTime)
    (bs : List MonthlyBucket)
    (hn : (bs.map MonthlyBucket.key).Nodup)
    (b : MonthlyBucket) (hb : b ∈ bs) :
    (¬(0 < keyCount (analyze_buckets pn sn now bs).restock_recommendations b ∧
        0 < keyCount (analyze_buckets pn sn now bs).avoid_restock b)) ∧
    (sampleVar? (bucketQs bs) = some 0 ∧ (b.quantity : ℚ) = qmean (bucketQs bs) →
       keyCount (analyze_buckets pn sn now bs).restock_recommendations b = 1 ∧
       keyCount (analyze_buckets pn sn now bs).high_demand_periods b = 1 ∧
       keyCount (analyze_buckets pn sn now bs).avoid_restock b = 0) := by
  have hrestock := keyCount_restock pn sn now bs hn b hb
  have hhighd := keyCount_high_demand pn sn now bs hn b hb
  have havoid := keyCount_avoid pn sn now bs hn b hb
  constructor
  · rintro ⟨h1, h2⟩
    rw [hrestock] at h1
    rw [havoid] at h2
    cases hflag : highFlag (qmean (bucketQs bs)) (sampleVar? (bucketQs bs)) (b.quantity : ℚ) with
    | true =>
      rw [hflag] at h2
      simp at h2
    | false =>
      rw [hflag] at h1
      simp at h1
  · rintro ⟨hv0, hqm⟩
    have hH : highFlag (qmean (bucketQs bs)) (sampleVar? (bucketQs bs)) (b.quantity : ℚ) = true := by
      rw [hv0, hqm]
      unfold highFlag
      simp
    rw [hH] at hrestock hhighd havoid
    simp at hrestock hhighd havoid
    exact ⟨hrestock, hhighd, havoid⟩

theorem C9_exclusive_classification_witness :
    ((twoEqualBuckets.map MonthlyBucket.key).Nodup ∧
     (⟨1, 1, (2024, 1), 5⟩ : MonthlyBucket) ∈ twoEqualBuckets) ∧
    ((¬(0 < keyCount (analyze_buckets noName noName epoch twoEqualBuckets).restock_recommendations
           ⟨1, 1, (2024, 1), 5⟩ ∧
        0 < keyCount (analyze_buckets noName noName epoch twoEqualBuckets).avoid_restock
           ⟨1, 1, (2024, 1), 5⟩)) ∧
     (sampleVar? (bucketQs twoEqualBuckets) = some 0 ∧
        ((⟨1, 1, (2024, 1), 5⟩ : MonthlyBucket).quantity : ℚ) = qmean (bucketQs twoEqualBuckets) →
       keyCount (analyze_buckets noName noName epoch twoEqualBuckets).restock_recommendations
           ⟨1, 1, (2024, 1), 5⟩ = 1 ∧
       keyCount (analyze_buckets noName noName epoch twoEqualBuckets).high_demand_periods
           ⟨1, 1, (2024, 1), 5⟩ = 1 ∧
       keyCount (analyze_buckets noName noName epoch twoEqualBuckets).avoid_restock
           ⟨1, 1, (2024, 1), 5⟩ = 0)) :=
  ⟨⟨by decide, by decide⟩,
   C9_exclusive_classification noName noName epoch twoEqualBuckets (by decide)
     ⟨1, 1, (2024, 1), 5⟩ (by decide)⟩

/-! ## Claim C10 -/

/-- C10: a non-empty input whose monthly aggregation yields exactly one
bucket produces no recommendations of any kind — the sample standard
deviation of a single value is NaN (ddof = 1), so neither threshold
comparison holds. -/
theorem C10_single_bucket_no_output (pn sn : Int → Option String) (now : UTCTime)
    (sales : List SaleRecord) (hne : sales ≠ [])
    (h1 : (monthly_sales sales).length = 1) :
    analyze_sales_patterns pn sn now sales =
      { restock_recommendations := [], avoid_restock := [], high_demand_periods := [] } := by
  unfold analyze_sales_patterns
  rw [if_neg hne]
  have hv : sampleVar? (bucketQs (monthly_sales sales)) = none := by
    apply sampleVar?_of_length_lt_two
    simp [bucketQs, h1]
  simp only [analyze_buckets, hv]
  simp [highFlag_none, lowFlag_none]

theorem C10_single_bucket_no_output_witness :
    ([oneSale] ≠ ([] : List SaleRecord) ∧ (monthly_sales [oneSale]).length = 1) ∧
    analyze_sales_patterns noName noName epoch [oneSale] =
      { restock_recommendations := [], avoid_restock := [], high_demand_periods := [] } :=
  ⟨⟨by decide, by decide⟩,
   C10_single_bucket_no_output noName noName epoch [oneSale] (by decide) (by decide)⟩

/-! ## Regression lemmas -/

theorem Sx_closed (n : Nat) : Sx n = (n : ℚ) * ((n : ℚ) - 1) / 2 := by
  induction n with
  | zero => simp [Sx]
  | succ m ih =>
    unfold Sx at ih ⊢
    rw [Finset.sum_range_succ, ih]
    push_cast
    ring

theorem Sxx_closed (n : Nat) : Sxx n = (n : ℚ) * ((n : ℚ) - 1) * (2 * (n : ℚ) - 1) / 6 := by
  induction n with
  | zero => simp [Sxx]
  | succ m ih =>
    unfold Sxx at ih ⊢
    rw [Finset.sum_range_succ, ih]
    push_cast
    ring

theorem lsqDenom_eq (n : Nat) :
    (n : ℚ) * Sxx n - Sx n ^ 2 = (n : ℚ) ^ 2 * ((n : ℚ) - 1) * ((n : ℚ) + 1) / 12 := by
  rw [Sx_closed, Sxx_closed]
  ring

theorem lsqDenom_pos (n : Nat) (h2 : 2 ≤ n) :
    0 < (n : ℚ) * Sxx n - Sx n ^ 2 := by
  rw [lsqDenom_eq]
  have hn : (2 : ℚ) ≤ (n : ℚ) := by exact_mod_cast h2
  have hp : (0 : ℚ) < (n : ℚ) ^ 2 * ((n : ℚ) - 1) * ((n : ℚ) + 1) :=
    mul_pos (mul_pos (pow_pos (by linarith) 2) (by linarith)) (by linarith)
  linarith

theorem resid_sum (ys : List ℚ) (a b : ℚ) :
    (∑ i ∈ Finset.range ys.length, (ys.getD i 0 - (a * (i : ℚ) + b)))
      = Sy ys - a * Sx ys.length - (ys.length : ℚ) * b := by
  unfold Sy Sx
  rw [Finset.sum_sub_distrib, Finset.sum_add_distrib, ← Finset.mul_sum, Finset.sum_const,
    Finset.card_range, nsmul_eq_mul]
  ring

theorem resid_weighted_sum (ys : List ℚ) (a b : ℚ) :
    (∑ i ∈ Finset.range ys.length, (i : ℚ) * (ys.getD i 0 - (a * (i : ℚ) + b)))
      = Sxy ys - a * Sxx ys.length - b * Sx ys.length := by
  unfold Sxy Sxx Sx
  have hsplit : ∀ i ∈ Finset.range ys.length,
      (i : ℚ) * (ys.getD i 0 - (a * (i : ℚ) + b))
        = (i : ℚ) * ys.getD i 0 - a * (i : ℚ) ^ 2 - b * (i : ℚ) := by
    intro i _
    ring
  rw [Finset.sum_congr rfl hsplit, Finset.sum_sub_distrib, Finset.sum_sub_distrib,
    ← Finset.mul_sum, ← Finset.mul_sum]

theorem normal_eq_one (ys : List ℚ) (h2 : 2 ≤ ys.length) :
    (∑ i ∈ Finset.range ys.length,
        (ys.getD i 0 - (lsqSlope ys * (i : ℚ) + lsqIntercept ys))) = 0 := by
  rw [resid_sum]
  unfold lsqIntercept
  have hn : ((ys.length : ℚ)) ≠ 0 := by
    have : (2 : ℚ) ≤ (ys.length : ℚ) := by exact_mod_cast h2
    linarith
  field_simp

theorem normal_eq_two (ys : List ℚ) (h2 : 2 ≤ ys.length) :
    (∑ i ∈ Finset.range ys.length,
        (i : ℚ) * (ys.getD i 0 - (lsqSlope ys * (i : ℚ) + lsqIntercept ys))) = 0 := by
  rw [resid_weighted_sum]
  have hn : ((ys.length : ℚ)) ≠ 0 := by
    have : (2 : ℚ) ≤ (ys.length : ℚ) := by exact_mod_cast h2
    linarith
  have hD : ((ys.length : ℚ) * Sxx ys.length - Sx ys.length ^ 2) ≠ 0 :=
    ne_of_gt (lsqDenom_pos ys.length h2)
  unfold lsqIntercept lsqSlope
  field_simp
  ring

theorem sse_decomposition (ys : List ℚ) (a b : ℚ) :
    SSE ys a b = SSE ys (lsqSlope ys) (lsqIntercept ys)
      + (∑ i ∈ Finset.range ys.length,
          ((lsqSlope ys - a) * (i : ℚ) + (lsqIntercept ys - b)) ^ 2)
      + 2 * (lsqSlope ys - a) *
          (∑ i ∈ Finset.range ys.length,
            (i : ℚ) * (ys.getD i 0 - (lsqSlope ys * (i : ℚ) + lsqIntercept ys)))
      + 2 * (lsqIntercept ys - b) *
          (∑ i ∈ Finset.range ys.length,
            (ys.getD i 0 - (lsqSlope ys * (i : ℚ) + lsqIntercept ys))) := by
  unfold SSE
  rw [Finset.mul_sum, Finset.mul_sum, ← Finset.sum_add_distrib, ← Finset.sum_add_distrib,
    ← Finset.sum_add_distrib]
  apply Finset.sum_congr rfl
  intro i _
  ring

theorem sse_minimal (ys : List ℚ) (h2 : 2 ≤ ys.length) (a b : ℚ) :
    SSE ys (lsqSlope ys) (lsqIntercept ys) ≤ SSE ys a b := by
  rw [sse_decomposition ys a b, normal_eq_one ys h2, normal_eq_two ys h2]
  have hsq : 0 ≤ ∑ i ∈ Finset.range ys.length,
      ((lsqSlope ys - a) * (i : ℚ) + (lsqIntercept ys - b)) ^ 2 :=
    Finset.sum_nonneg fun i _ => sq_nonneg _
  linarith

/-! ## Claim C4 -/

/-- C4 amended: a pair's series of at least two ordered monthly totals
yields a Forecast whose stored `predicted_demand` is the least-squares
line over month indices 0,1,2,… (the unique SSE minimiser, per the third
conjunct) evaluated at index = length(series), clamped below at 0 — and
then rounded to two decimals by `round(float(...), 2)`; the recommendation
is Restock exactly when the unrounded clamped prediction strictly exceeds
currentStock + reorderLevel, with both defaulting to 0 when inventory data
is missing; a series of fewer than two points is skipped with no entity
and no error. -/
theorem C4_forecaster (pn sn : Int → Option String) (inv? : Option InventoryRow)
    (period : Nat × Nat) (now : UTCTime) (pid sid : Int) (ys : List ℚ)
    (h2 : 2 ≤ ys.length) :
    (∃ f, forecast_pair pn sn inv? period now pid sid ys = some f ∧
       f.predicted_demand = round2 (max 0 (lsqPredictNext ys)) ∧
       (∀ a b : ℚ, SSE ys (lsqSlope ys) (lsqIntercept ys) ≤ SSE ys a b) ∧
       lsqPredictNext ys = lsqIntercept ys + lsqSlope ys * (ys.length : ℚ) ∧
       (f.recommendation = .Restock ↔
          ((currentStockOf inv? + reorderLevelOf inv? : ℤ) : ℚ) < max 0 (lsqPredictNext ys)) ∧
       f.current_stock = currentStockOf inv? ∧
       (inv? = none → currentStockOf inv? = 0 ∧ reorderLevelOf inv? = 0)) ∧
    (∀ zs : List ℚ, zs.length < 2 →
       forecast_pair pn sn inv? period now pid sid zs = none) := by
  constructor
  · unfold forecast_pair
    rw [if_neg (Nat.not_lt.mpr h2)]
    refine ⟨_, rfl, rfl, fun a b => sse_minimal ys h2 a b, rfl, ?_, rfl, ?_⟩
    · by_cases hc :
        ((currentStockOf inv? + reorderLevelOf inv? : ℤ) : ℚ) < predicted_demand ys
      · rw [if_pos hc]
        exact iff_of_true rfl hc
      · rw [if_neg hc]
        exact iff_of_false (fun h => ForecastRec.noConfusion h) hc
    · rintro rfl
      exact ⟨rfl, rfl⟩
  · intro zs hzs
    unfold forecast_pair
    rw [if_pos hzs]

theorem C4_forecaster_witness :
    2 ≤ ([(10 : ℚ), 20, 30]).length ∧
    ((∃ f, forecast_pair noName noName (some ⟨5, some 0⟩) (2024, 4) epoch 1 1
          [(10 : ℚ), 20, 30] = some f ∧
       f.predicted_demand = round2 (max 0 (lsqPredictNext [(10 : ℚ), 20, 30])) ∧
       (∀ a b : ℚ, SSE [(10 : ℚ), 20, 30] (lsqSlope [(10 : ℚ), 20, 30])
           (lsqIntercept [(10 : ℚ), 20, 30]) ≤ SSE [(10 : ℚ), 20, 30] a b) ∧
       lsqPredictNext [(10 : ℚ), 20, 30] =
         lsqIntercept [(10 : ℚ), 20, 30] +
           lsqSlope [(10 : ℚ), 20, 30] * (([(10 : ℚ), 20, 30]).length : ℚ) ∧
       (f.recommendation = .Restock ↔
          ((currentStockOf (some ⟨5, some 0⟩) + reorderLevelOf (some ⟨5, some 0⟩) : ℤ) : ℚ) <
            max 0 (lsqPredictNext [(10 : ℚ), 20, 30])) ∧
       f.current_stock = currentStockOf (some ⟨5, some 0⟩) ∧
       (some ⟨5, some 0⟩ = (none : Option InventoryRow) →
          currentStockOf (some ⟨5, some 0⟩) = 0 ∧ reorderLevelOf (some ⟨5, some 0⟩) = 0)) ∧
     (∀ zs : List ℚ, zs.length < 2 →
        forecast_pair noName noName (some ⟨5, some 0⟩) (2024, 4) epoch 1 1 zs = none)) :=
  ⟨by decide,
   C4_forecaster noName noName (some ⟨5, some 0⟩) (2024, 4) epoch 1 1 [(10 : ℚ), 20, 30]
     (by decide)⟩

theorem lsqPredictNext_001 : lsqPredictNext [(0 : ℚ), 0, 1] = 4 / 3 := by
  norm_num [lsqPredictNext, lsqSlope, lsqIntercept, Sx, Sxx, Sy, Sxy,
    Finset.sum_range_succ]

/-- C4 fails as stated on the emitted entity: for the series [0, 0, 1]
the least-squares prediction at index 3, clamped at 0, is 4/3, but the
stored `predicted_demand` is `round(float(4/3), 2) = 1.33 ≠ 4/3`. -/
theorem C4_counterexample :
    (forecast_pair noName noName Option.none (2024, 4) epoch 1 1
        [(0 : ℚ), 0, 1]).map Forecast.predicted_demand = some (133 / 100) ∧
    max 0 (lsqPredictNext [(0 : ℚ), 0, 1]) = 4 / 3 ∧
    (133 : ℚ) / 100 ≠ 4 / 3 := by
  have hmax : max 0 (lsqPredictNext [(0 : ℚ), 0, 1]) = 4 / 3 := by
    rw [lsqPredictNext_001]
    norm_num [max_eq_right]
  have hpred : predicted_demand [(0 : ℚ), 0, 1] = 4 / 3 := by
    rw [predicted_demand, hmax]
  refine ⟨?_, hmax, by norm_num⟩
  unfold forecast_pair
  rw [if_neg (by norm_num)]
  show some (round2 (predicted_demand [(0 : ℚ), 0, 1])) = some (133 / 100)
  rw [hpred]
  norm_num [round2, pyRoundInt]

/-! ## Claim C5 -/

/-- C5 against the code: on the empty input the guarded operations of
`recommendations.py` (aggregation, pattern analysis, density detection)
return empty outputs, but `salesforcast.py`'s `forecast_demand` and
`detect_anomalies` run `pd.DataFrame([])["sold_at"]` on a DataFrame with
no columns and raise a `KeyError` instead of returning empty results. -/
theorem C5_empty_input (forest : List ℚ → Except String (List Bool))
    (pn sn : Int → Option String) (inv : Int → Int → Option InventoryRow)
    (period : Nat × Nat) (now : UTCTime) :
    monthly_sales [] = [] ∧
    analyze_sales_patterns pn sn now [] =
      { restock_recommendations := [], avoid_restock := [], high_demand_periods := [] } ∧
    rec_detect_anomalies forest pn sn now [] = [] ∧
    sf_detect_anomalies now [] = .error keyErrorSoldAt ∧
    forecast_demand pn sn inv period now [] = .error keyErrorSoldAt :=
  ⟨rfl, rfl, rfl, rfl, rfl⟩

/-! ## Claim C7 -/

/-- C7 amended: a present and NON-EMPTY `store_id` parameter that does
not parse as an integer yields status 400 before any computation is run
(the response is the same whatever the anomaly / pattern computations
are); a present empty string is falsy in Python, skips the validation and
is passed through unvalidated; and any exception raised inside the
computations yields status 500 carrying the diagnostic message. -/
theorem C7_endpoint_validation {α β : Type} (anom : PyVal → Except String α)
    (pats : PyVal → Except String β) (s : String)
    (hs : s.data ≠ []) (hparse : pyToInt s = Option.none) :
    recommendations_endpoint anom pats (some s) = (400, .error invalidStoreMsg) ∧
    (∀ v e, anom v = .error e →
       run_recommendations anom pats v = (500, .error (internalErrorPre ++ e))) ∧
    (∀ v a e, anom v = .ok a → pats v = .error e →
       run_recommendations anom pats v = (500, .error (internalErrorPre ++ e))) := by
  refine ⟨?_, ?_, ?_⟩
  · have ht : (PyVal.str s).truthy = true := by
      show (!s.data.isEmpty) = true
      cases hd : s.data with
      | nil => exact absurd hd hs
      | cons c t => rfl
    simp [recommendations_endpoint, ht, hparse]
  · intro v e he
    unfold run_recommendations
    rw [he]
  · intro v a e ha he
    unfold run_recommendations
    rw [ha, he]

theorem C7_endpoint_validation_witness :
    ((r"abc" : String).data ≠ [] ∧ pyToInt (r"abc") = Option.none) ∧
    (recommendations_endpoint (fun _ => Except.ok (0 : Nat)) (fun _ => Except.ok (0 : Nat))
        (some (r"abc")) = (400, .error invalidStoreMsg) ∧
     (∀ v e, (Except.ok 0 : Except String Nat) = Except.error e →
        run_recommendations (fun _ => Except.ok (0 : Nat)) (fun _ => Except.ok (0 : Nat)) v =
          (500, .error (internalErrorPre ++ e))) ∧
     (∀ v a e, (Except.ok 0 : Except String Nat) = Except.ok a →
        (Except.ok 0 : Except String Nat) = Except.error e →
        run_recommendations (fun _ => Except.ok (0 : Nat)) (fun _ => Except.ok (0 : Nat)) v =
          (500, .error (internalErrorPre ++ e)))) :=
  ⟨⟨by decide, by decide⟩,
   C7_endpoint_validation (fun _ => Except.ok (0 : Nat)) (fun _ => Except.ok (0 : Nat))
     (r"abc") (by decide) (by decide)⟩

/-- C7 fails as stated on the empty string: with `?store_id=` the
parameter is present and `int("")` raises ValueError, but `if store_id:`
is false for the empty string, so validation is skipped and the endpoint
returns 200 (when the computations succeed) rather than 400. -/
theorem C7_counterexample :
    pyToInt (r"") = Option.none ∧
    (recommendations_endpoint (fun _ => Except.ok (0 : Nat)) (fun _ => Except.ok (0 : Nat))
        (some (r""))).1 = 200 :=
  ⟨rfl, rfl⟩

/-! ## Claim C8 -/

theorem sf_pair_anomalies_core (t1 t2 : UTCTime) (rows : List SaleRecord) :
    (sf_pair_anomalies t1 rows).map anomalyCore =
      (sf_pair_anomalies t2 rows).map anomalyCore := by
  unfold sf_pair_anomalies
  rw [List.map_map, List.map_map]
  apply List.map_congr_left
  intro i _
  rfl

/-- C8: with the isolation forest fixed by its seed (modelled as a pure
function of the quantity series), both anomaly detectors are
deterministic — rerunning either on the same input gives identical
output — and the flagged rows and their classifications are independent
of the run time: only the `created_at` stamp mentions it. -/
theorem C8_determinism (forest : List ℚ → Except String (List Bool))
    (pn sn : Int → Option String) (sales : List SaleRecord) (t1 t2 : UTCTime) :
    sf_detect_anomalies t1 sales = sf_detect_anomalies t1 sales ∧
    rec_detect_anomalies forest pn sn t1 sales = rec_detect_anomalies forest pn sn t1 sales ∧
    (sf_detect_anomalies t1 sales).map (List.map anomalyCore) =
      (sf_detect_anomalies t2 sales).map (List.map anomalyCore) ∧
    (rec_detect_anomalies forest pn sn t1 sales).map anomalyNCore =
      (rec_detect_anomalies forest pn sn t2 sales).map anomalyNCore := by
  refine ⟨rfl, rfl, ?_, ?_⟩
  · unfold sf_detect_anomalies
    by_cases h : sales = []
    · rw [if_pos h, if_pos h]
    · rw [if_neg h, if_neg h]
      show Except.ok _ = Except.ok _
      congr 1
      rw [List.map_flatMap, List.map_flatMap]
      congr 1
      funext p
      exact sf_pair_anomalies_core t1 t2 (pairRows sales p)
  · unfold rec_detect_anomalies
    by_cases h : sales = []
    · rw [if_pos h, if_pos h]
    · rw [if_neg h, if_neg h]
      rw [List.map_flatMap, List.map_flatMap]
      congr 1
      funext p
      by_cases h3 : (pairRows sales p).length < 3
      · simp [h3]
      · by_cases h500 : 500 < (pairRows sales p).length
        · simp [h3, h500]
        · simp only [h3, h500, if_false, ite_false]
          cases hf : forest ((pairRows sales p).map fun r => (r.quantity : ℚ)) with
          | error e => rfl
          | ok flags =>
            simp only []
            rw [List.map_map, List.map_map]
            apply List.map_congr_left
            intro i _
            rfl
